import Mathlib

/-!
# Upland: the frame pump of `SDL_main` (source/main.c)

A shallow embedding of `SDL_main`. The function only sequences calls into
SDL and the engine, so the embedding records every call it makes as an
`Event` of a trace, in program order, and reads what the callees return
from an `Env`. The calls are made one after the other by the main thread: a
call at an earlier position of the trace has returned before a later one
begins. The 64-bit timing arithmetic of the main loop is modelled on `Nat`
with an explicit reduction modulo `2 ^ 64`.

Not modelled: what the render thread does concurrently, the contents of the
allocators and of the world, and the rounding of `delta_time_seconds` to
`double` and `float` (the tick event keeps the integer operands instead).
The main loop takes an iteration budget `fuel`; a run that is still inside the
loop when the budget is used up ends with `Outcome.stillLooping`.
-/

namespace Upland

/-! ## Unsigned 64-bit arithmetic -/

/-- The number of values of a `uint64_t`, `2 ^ 64`. -/
def UINT64_MODULUS : Nat := 18446744073709551616

/-- Subtraction of two `uint64_t` values as C performs it: modulo `2 ^ 64`. -/
def u64_sub (a b : Nat) : Nat :=
  (a % UINT64_MODULUS + (UINT64_MODULUS - b % UINT64_MODULUS)) % UINT64_MODULUS

/-! ## Calls made by `SDL_main` -/

/-- One call made by `SDL_main` (or by the block it passes to
`tb_create_world`), with the arguments that matter to the frame pump. -/
inductive Event where
  | SDL_Log (message : String)
  | TracyCAppInfo
  | TracyCSetThreadName (name : String)
  | tb_create_arena_alloc (name : String) (size : Nat)
  | tb_create_gen_alloc (name : String)
  | SDL_Init
  | SDL_GetError
  | SDL_TriggerBreakpoint
  | SDL_LogSetAllPriority
  | SDL_CreateWindow (title : String) (w h : Nat)
  | SDL_Quit
  | tb_alloc_tp
  | tb_start_render_thread
  /-- The expansion of `TB_CHECK` ran with a false condition. -/
  | TB_CHECK_failed (message : String)
  | tb_wait_thread_initialized
  | tb_create_world
  | tb_create_default_world
  | upl_register_shooter_system
  | tb_load_scene (path : String)
  | SDL_GetPerformanceCounter
  | SDL_GetPerformanceFrequency
  | TracyCFrameMarkStart (name : String)
  | TracyCZoneN (name : String)
  | TracyCZoneColor
  | TracyCZoneEnd
  | TracyCFrameMarkEnd (name : String)
  /-- The call `tb_tick_world(&world, delta_time_seconds)`. The argument is the
  `float` nearest to `(double)delta_time / (double)frequency`; the event keeps
  the two integer operands of that division. -/
  | tb_tick_world (delta_time frequency : Nat)
  | tb_reset_arena (allow_growth : Bool)
  | tb_clear_world
  | tb_stop_render_thread
  | upl_unregister_shooter_system
  | tb_destroy_world
  | tb_destroy_render_thread
  | tb_free
  | tb_destroy_arena_alloc
  | tb_destroy_gen_alloc
  deriving DecidableEq, Repr

/-- What the callees of `SDL_main` return during one run. -/
structure Env where
  /-- Return value of `SDL_Init`. -/
  SDL_Init : Int
  /-- Return value of `SDL_CreateWindow`; `none` is `NULL`. -/
  SDL_CreateWindow : Option Nat
  /-- The string `SDL_GetError` returns on a failure path. -/
  SDL_GetError : String
  /-- Return value of `tb_start_render_thread`. -/
  tb_start_render_thread : Bool
  /-- Reading number `i` of `SDL_GetPerformanceCounter`: reading `0` is the
  one stored in `start_time`, reading `n` the one taken in frame `n`. -/
  SDL_GetPerformanceCounter : Nat → Nat
  /-- Value of `SDL_GetPerformanceFrequency` in frame `n`. -/
  SDL_GetPerformanceFrequency : Nat → Nat
  /-- Return value of `tb_tick_world` in frame `n` (frames count from 1). -/
  tb_tick_world : Nat → Bool

/-- What the expansion of `TB_CHECK(cond, message)` does after a false
condition. `TB_CHECK` is defined in the engine header tbcommon.h, which is not
among the sources of this repository, so `SDL_main` takes it as a parameter:
the expansion either falls through to the next statement or makes control
leave `SDL_main` with a process status. -/
inductive TbCheck where
  | fallThrough
  | leave (status : Int)
  deriving DecidableEq, Repr

/-- Modelled from the spec: the behaviour of `TB_CHECK` (tbcommon.h, absent
from the sources) on a false condition. The spec says of the render thread that
"failure to spawn is unrecoverable and terminates the process", "immediately
with a nonzero status", and lists `-1` as the exit code of a
"render-thread-start failure". -/
def TB_CHECK_spec : TbCheck := TbCheck.leave (-1)

/-- How a run of `SDL_main` ends. -/
inductive Outcome where
  /-- A `return` statement of `SDL_main` was executed. -/
  | returned (code : Int)
  /-- Control left `SDL_main` from inside the expansion of `TB_CHECK`. -/
  | terminated (status : Int)
  /-- The main loop was still running when the iteration budget ran out. -/
  | stillLooping
  deriving DecidableEq, Repr

/-- The local variables of the main loop (main.c lines 131-137). The `float`
`delta_time_seconds` is not kept: it is the rounding of `delta_time` divided
by the frequency, and the `tb_tick_world` event keeps both operands. `frame`
is a ghost counter of the iterations begun so far. -/
structure LoopState where
  running : Bool
  time : Nat
  start_time : Nat
  last_time : Nat
  delta_time : Nat
  frame : Nat
  deriving DecidableEq, Repr

/-- The observable result of a run. `loop` is `none` when the run ended before
the main loop was reached, and otherwise holds the loop variables at the end. -/
structure Result where
  trace : List Event
  outcome : Outcome
  loop : Option LoopState
  deriving DecidableEq, Repr

/-- The main loop of `SDL_main` (main.c lines 139-164) followed by the
`return 0;` of line 166. `fuel` bounds the number of iterations. -/
def main_loop (env : Env) : Nat → LoopState → Result
  | 0, s => { trace := [], outcome := Outcome.stillLooping, loop := some s }
  | fuel + 1, s =>
    if s.running then
      let n := s.frame + 1
      -- time = SDL_GetPerformanceCounter() - start_time;
      let time := u64_sub (env.SDL_GetPerformanceCounter n) s.start_time
      -- delta_time = time - last_time;
      let delta_time := u64_sub time s.last_time
      let frequency := env.SDL_GetPerformanceFrequency n % UINT64_MODULUS
      -- last_time = time;
      let s1 : LoopState :=
        { s with time := time, delta_time := delta_time, last_time := time, frame := n }
      let head : List Event :=
        [Event.TracyCFrameMarkStart "Simulation Frame",
         Event.TracyCZoneN "Simulation Frame",
         Event.TracyCZoneColor,
         Event.SDL_GetPerformanceCounter,
         Event.SDL_GetPerformanceFrequency,
         Event.tb_tick_world delta_time frequency]
      if !env.tb_tick_world n then
        -- running = false; ...; break;  and then line 166: return 0;
        { trace := head ++
            [Event.TracyCZoneEnd, Event.TracyCFrameMarkEnd "Simulation Frame"],
          outcome := Outcome.returned 0,
          loop := some { s1 with running := false } }
      else
        let r := main_loop env fuel s1
        { r with trace := head ++
            [Event.tb_reset_arena true,
             Event.TracyCZoneEnd, Event.TracyCFrameMarkEnd "Simulation Frame"] ++ r.trace }
    else
      { trace := [], outcome := Outcome.returned 0, loop := some s }

/-- The block `create_world` of main.c lines 117-122. -/
def create_world : List Event :=
  [Event.tb_create_default_world, Event.upl_register_shooter_system]

/-- Modelled from the spec: `tb_create_world` (world.h, absent from the
sources) "invokes `composition_callback(world, render_thread, window)`", once,
during the call. -/
def tb_create_world (composition_callback : List Event) : List Event :=
  Event.tb_create_world :: composition_callback

/-- The statements of main.c lines 169-187, which follow the unconditional
`return 0;` of line 166. Control never reaches them, so `SDL_main` below does
not emit them. -/
def shutdown_sequence : List Event :=
  [Event.tb_clear_world,
   Event.tb_stop_render_thread,
   Event.upl_unregister_shooter_system,
   Event.tb_destroy_world,
   Event.tb_destroy_render_thread,
   Event.tb_free,
   Event.SDL_Quit,
   Event.tb_destroy_arena_alloc,
   Event.tb_destroy_gen_alloc]

/-- The function `SDL_main` of main.c: lines 56-80. -/
def entry_events : List Event :=
  [Event.SDL_Log "Entered SDL_main",
   Event.TracyCAppInfo,
   Event.TracyCSetThreadName "Main Thread",
   Event.SDL_Log "Creating Arena Allocator",
   Event.tb_create_arena_alloc "Main Arena" (1024 * 1024 * 512),
   Event.SDL_Log "Creating General Allocator",
   Event.tb_create_gen_alloc "std_alloc"]

/-- The loop variables as initialised by main.c lines 131-137. -/
def initial_loop_state (env : Env) : LoopState :=
  { running := true,
    time := 0,
    start_time := env.SDL_GetPerformanceCounter 0 % UINT64_MODULUS,
    last_time := 0,
    delta_time := 0,
    frame := 0 }

/-- The function `SDL_main` of main.c. `chk` is the behaviour of `TB_CHECK`,
`fuel` the iteration budget of the main loop. -/
def SDL_main (env : Env) (chk : TbCheck) (fuel : Nat) : Result :=
  let t0 := entry_events ++ [Event.SDL_Init]
  if env.SDL_Init ≠ 0 then
    { trace := t0 ++
        [Event.SDL_GetError,
         Event.SDL_Log ("Failed to initialize SDL with error: " ++ env.SDL_GetError),
         Event.SDL_TriggerBreakpoint],
      outcome := Outcome.returned (-1),
      loop := none }
  else
    let t1 := t0 ++ [Event.SDL_LogSetAllPriority, Event.SDL_CreateWindow "Upland" 1920 1080]
    match env.SDL_CreateWindow with
    | none =>
      { trace := t1 ++
          [Event.SDL_GetError,
           Event.SDL_Log ("Failed to open window with error: " ++ env.SDL_GetError),
           Event.SDL_Quit,
           Event.SDL_TriggerBreakpoint],
        outcome := Outcome.returned (-1),
        loop := none }
    | some _ =>
      let t2 := t1 ++ [Event.tb_alloc_tp, Event.tb_start_render_thread]
      -- TB_CHECK(tb_start_render_thread(...), "Failed to start render thread");
      let checked : List Event × Option Int :=
        if env.tb_start_render_thread then (t2, none)
        else
          match chk with
          | TbCheck.fallThrough =>
            (t2 ++ [Event.TB_CHECK_failed "Failed to start render thread"], none)
          | TbCheck.leave status =>
            (t2 ++ [Event.TB_CHECK_failed "Failed to start render thread"], some status)
      match checked with
      | (t3, some status) =>
        { trace := t3, outcome := Outcome.terminated status, loop := none }
      | (t3, none) =>
        let t4 := t3 ++ [Event.tb_wait_thread_initialized] ++ tb_create_world create_world ++
          [Event.tb_load_scene "scenes/upland.glb", Event.SDL_GetPerformanceCounter]
        let r := main_loop env fuel (initial_loop_state env)
        -- line 166: return 0;  (lines 169-189 are never reached)
        { r with trace := t4 ++ r.trace }

/-! ## Closed forms used by the proofs -/

/-- The value of `time` in frame `n`: reading `n` minus `start_time`, as a
`uint64_t`. -/
def elapsed (env : Env) (n : Nat) : Nat :=
  u64_sub (env.SDL_GetPerformanceCounter n) (env.SDL_GetPerformanceCounter 0 % UINT64_MODULUS)

/-- The value of `delta_time` in frame `n`, for `n ≥ 1`. -/
def frame_delta (env : Env) (n : Nat) : Nat :=
  u64_sub (elapsed env n) (elapsed env (n - 1))

/-- The calls of frame `n` up to and including `tb_tick_world`. -/
def frame_head (env : Env) (n : Nat) : List Event :=
  [Event.TracyCFrameMarkStart "Simulation Frame",
   Event.TracyCZoneN "Simulation Frame",
   Event.TracyCZoneColor,
   Event.SDL_GetPerformanceCounter,
   Event.SDL_GetPerformanceFrequency,
   Event.tb_tick_world (frame_delta env n) (env.SDL_GetPerformanceFrequency n % UINT64_MODULUS)]

/-- The calls of a frame `n` whose tick returns true. -/
def full_frame (env : Env) (n : Nat) : List Event :=
  frame_head env n ++
    [Event.tb_reset_arena true, Event.TracyCZoneEnd, Event.TracyCFrameMarkEnd "Simulation Frame"]

/-- The calls of a frame `n` whose tick returns false. -/
def last_frame (env : Env) (n : Nat) : List Event :=
  frame_head env n ++ [Event.TracyCZoneEnd, Event.TracyCFrameMarkEnd "Simulation Frame"]

/-- The calls of the `j` frames `m + 1, ..., m + j`, all of whose ticks return
true. -/
def frames (env : Env) (m : Nat) : Nat → List Event
  | 0 => []
  | j + 1 => full_frame env (m + 1) ++ frames env (m + 1) j

/-- The loop variables after `n` frames whose ticks returned true. -/
def state_after (env : Env) (n : Nat) : LoopState :=
  { running := true,
    time := elapsed env n,
    start_time := env.SDL_GetPerformanceCounter 0 % UINT64_MODULUS,
    last_time := elapsed env n,
    delta_time := if n = 0 then 0 else frame_delta env n,
    frame := n }

/-- The calls `SDL_main` makes before the main loop when it reaches it. -/
def startup_trace (env : Env) : List Event :=
  entry_events ++
    [Event.SDL_Init, Event.SDL_LogSetAllPriority, Event.SDL_CreateWindow "Upland" 1920 1080,
     Event.tb_alloc_tp, Event.tb_start_render_thread] ++
    (if env.tb_start_render_thread then []
     else [Event.TB_CHECK_failed "Failed to start render thread"]) ++
    [Event.tb_wait_thread_initialized, Event.tb_create_world, Event.tb_create_default_world,
     Event.upl_register_shooter_system, Event.tb_load_scene "scenes/upland.glb",
     Event.SDL_GetPerformanceCounter]

/-- Startup succeeds: SDL initialises, the window opens and the render thread
starts. -/
def startup_succeeds (env : Env) : Prop :=
  env.SDL_Init = 0 ∧ env.SDL_CreateWindow ≠ none ∧ env.tb_start_render_thread = true

/-- The first `false` of `tb_tick_world` is returned in frame `k`. -/
def first_false_at (env : Env) (k : Nat) : Prop :=
  (∀ i, 1 ≤ i → i < k → env.tb_tick_world i = true) ∧ env.tb_tick_world k = false

/-- Whether an event is a call of `tb_tick_world`. -/
def Event.isTick : Event → Bool
  | Event.tb_tick_world _ _ => true
  | _ => false

/-- Whether an event is a call of `tb_reset_arena`. -/
def Event.isReset : Event → Bool
  | Event.tb_reset_arena _ => true
  | _ => false

/-- The operands `(delta_time, frequency)` of the ticks of a trace, in order. -/
def tick_args (t : List Event) : List (Nat × Nat) :=
  t.filterMap fun e =>
    match e with
    | Event.tb_tick_world d f => some (d, f)
    | _ => none

/-- The exact quotient whose rounding `tb_tick_world` receives. -/
def exact_seconds (a : Nat × Nat) : ℚ := (a.1 : ℚ) / (a.2 : ℚ)

/-- The values of `delta_time` passed on by the ticks of a trace, in order. -/
def tick_deltas (t : List Event) : List Nat :=
  (tick_args t).map Prod.fst

/-- The operands of the tick of frame `n`. -/
def tick_arg (env : Env) (n : Nat) : Nat × Nat :=
  (frame_delta env n, env.SDL_GetPerformanceFrequency n % UINT64_MODULUS)

/-- A call of the main loop that ticks the world or resets the arena. -/
inductive LoopCall where
  | tick
  | reset (allow_growth : Bool)
  deriving DecidableEq, Repr

/-- The ticks and arena resets of a trace, in order. -/
def loop_calls (t : List Event) : List LoopCall :=
  t.filterMap fun e =>
    match e with
    | Event.tb_tick_world _ _ => some LoopCall.tick
    | Event.tb_reset_arena g => some (LoopCall.reset g)
    | _ => none

/-- Whether an event is one of the calls made inside the main loop. -/
def Event.isFrameCall : Event → Bool
  | Event.TracyCFrameMarkStart _ => true
  | Event.TracyCZoneN _ => true
  | Event.TracyCZoneColor => true
  | Event.SDL_GetPerformanceCounter => true
  | Event.SDL_GetPerformanceFrequency => true
  | Event.tb_tick_world _ _ => true
  | Event.tb_reset_arena _ => true
  | Event.TracyCZoneEnd => true
  | Event.TracyCFrameMarkEnd _ => true
  | _ => false

/-- Whether an event is a call of `tb_load_scene`. -/
def Event.isLoadScene : Event → Bool
  | Event.tb_load_scene _ => true
  | _ => false

/-- The calls that create the world: `tb_create_world` and the two calls of the
block it invokes. -/
def world_creation : List Event :=
  tb_create_world create_world

/-- A run in which startup succeeds and the first tick returns false. -/
def env_quit_at_1 : Env where
  SDL_Init := 0
  SDL_CreateWindow := some 1
  SDL_GetError := ""
  tb_start_render_thread := true
  SDL_GetPerformanceCounter := fun i => 1000 + 16 * i
  SDL_GetPerformanceFrequency := fun _ => 1000
  tb_tick_world := fun _ => false

/-- A run in which `SDL_Init` fails. -/
def env_init_fails : Env :=
  { env_quit_at_1 with SDL_Init := 1, SDL_GetError := "no video device" }

/-- A run in which `SDL_CreateWindow` returns `NULL`. -/
def env_window_fails : Env :=
  { env_quit_at_1 with SDL_CreateWindow := none, SDL_GetError := "no display" }

/-- A run in which `tb_start_render_thread` returns false. -/
def env_thread_fails : Env :=
  { env_quit_at_1 with tb_start_render_thread := false }

/-- A run whose counter wraps around `2 ^ 64` between the reading of
`start_time` and frame 1, and goes backwards in frame 3. -/
def env_wraps : Env :=
  { env_quit_at_1 with
    SDL_GetPerformanceCounter := fun i =>
      match i with
      | 0 => 18446744073709551611
      | 1 => 3
      | 2 => 10
      | _ => 4
    tb_tick_world := fun n => decide (n < 3) }

/-- A run in which startup succeeds and tick returns false in frame 50. -/
def env_quit_at_50 : Env :=
  { env_quit_at_1 with tb_tick_world := fun n => decide (n < 50) }

/-- A run in which startup succeeds and tick returns false in frame 3. -/
def env_quit_at_3 : Env :=
  { env_quit_at_1 with tb_tick_world := fun n => decide (n < 3) }

/-- A run in which startup succeeds and tick never returns false. -/
def env_never_quits : Env :=
  { env_quit_at_1 with tb_tick_world := fun _ => true }

/-- The number of calls of `tb_tick_world` in a trace. -/
def tick_count (t : List Event) : Nat := t.countP Event.isTick

/-- The number of calls of `tb_reset_arena` in a trace. -/
def reset_count (t : List Event) : Nat := t.countP Event.isReset

/-! ## The main loop -/

theorem u64_sub_self (a : Nat) : u64_sub a (a % UINT64_MODULUS) = 0 := by
  unfold u64_sub UINT64_MODULUS
  omega

theorem elapsed_zero (env : Env) : elapsed env 0 = 0 := by
  unfold elapsed
  exact u64_sub_self _

theorem initial_loop_state_eq (env : Env) : initial_loop_state env = state_after env 0 := by
  simp [initial_loop_state, state_after, elapsed_zero]

theorem main_loop_step_true (env : Env) (fuel n : Nat) (h : env.tb_tick_world (n + 1) = true) :
    main_loop env (fuel + 1) (state_after env n) =
      { main_loop env fuel (state_after env (n + 1)) with
        trace := full_frame env (n + 1) ++ (main_loop env fuel (state_after env (n + 1))).trace } := by
  simp [main_loop, state_after, h, full_frame, frame_head, frame_delta, elapsed]

theorem main_loop_step_false (env : Env) (fuel n : Nat) (h : env.tb_tick_world (n + 1) = false) :
    main_loop env (fuel + 1) (state_after env n) =
      { trace := last_frame env (n + 1),
        outcome := Outcome.returned 0,
        loop := some { state_after env (n + 1) with running := false } } := by
  simp [main_loop, state_after, h, last_frame, frame_head, frame_delta, elapsed]

theorem main_loop_frames (env : Env) (fuel : Nat) :
    ∀ (j m : Nat), (∀ i, m < i → i ≤ m + j → env.tb_tick_world i = true) →
      main_loop env (j + fuel) (state_after env m) =
        { main_loop env fuel (state_after env (m + j)) with
          trace := frames env m j ++ (main_loop env fuel (state_after env (m + j))).trace } := by
  intro j
  induction j with
  | zero => intro m _; simp [frames]
  | succ j ih =>
    intro m h
    have h1 : env.tb_tick_world (m + 1) = true := h (m + 1) (by omega) (by omega)
    have h2 : ∀ i, m + 1 < i → i ≤ m + 1 + j → env.tb_tick_world i = true :=
      fun i hi hj => h i (by omega) (by omega)
    have e : j + 1 + fuel = (j + fuel) + 1 := by omega
    rw [e, main_loop_step_true env _ m h1, ih (m + 1) h2]
    have e2 : m + 1 + j = m + (j + 1) := by omega
    simp [frames, e2]

/-- A run whose ticks all return true uses up any iteration budget. -/
theorem main_loop_looping (env : Env) (fuel : Nat)
    (h : ∀ i, 1 ≤ i → i ≤ fuel → env.tb_tick_world i = true) :
    main_loop env fuel (initial_loop_state env) =
      { trace := frames env 0 fuel,
        outcome := Outcome.stillLooping,
        loop := some (state_after env fuel) } := by
  have := main_loop_frames env 0 fuel 0 (fun i hi hj => h i (by omega) (by omega))
  rw [initial_loop_state_eq]
  simpa [main_loop] using this

/-- A run whose first false tick is in frame `j + 1` leaves the loop there,
whatever budget of at least `j + 1` iterations it is given. -/
theorem main_loop_exit (env : Env) (fuel j : Nat) (hf : j + 1 ≤ fuel)
    (h : first_false_at env (j + 1)) :
    main_loop env fuel (initial_loop_state env) =
      { trace := frames env 0 j ++ last_frame env (j + 1),
        outcome := Outcome.returned 0,
        loop := some { state_after env (j + 1) with running := false } } := by
  obtain ⟨d, rfl⟩ : ∃ d, fuel = j + (d + 1) := ⟨fuel - (j + 1), by omega⟩
  have := main_loop_frames env (d + 1) j 0 (fun i hi hj => h.1 i (by omega) (by omega))
  rw [initial_loop_state_eq, this]
  simp only [Nat.zero_add]
  rw [main_loop_step_false env d j h.2]

theorem main_loop_loop_ne_none (env : Env) :
    ∀ (fuel : Nat) (s : LoopState), (main_loop env fuel s).loop ≠ none := by
  intro fuel
  induction fuel with
  | zero => intro s; simp [main_loop]
  | succ f ih =>
    intro s
    simp only [main_loop]
    cases s.running <;> cases env.tb_tick_world (s.frame + 1) <;> simp [ih]

/-! ## Startup -/

theorem SDL_main_loop_reached (env : Env) (chk : TbCheck) (fuel : Nat)
    (hi : env.SDL_Init = 0) (hw : env.SDL_CreateWindow ≠ none)
    (hs : env.tb_start_render_thread = true ∨ chk = TbCheck.fallThrough) :
    SDL_main env chk fuel =
      { main_loop env fuel (initial_loop_state env) with
        trace := startup_trace env ++ (main_loop env fuel (initial_loop_state env)).trace } := by
  obtain ⟨w, hw⟩ := Option.ne_none_iff_exists'.mp hw
  rcases hs with hs | hs
  · simp [SDL_main, hi, hw, hs, startup_trace, tb_create_world, create_world]
  · cases hb : env.tb_start_render_thread <;>
      simp [SDL_main, hi, hw, hs, hb, startup_trace, tb_create_world, create_world]

theorem SDL_main_exit (env : Env) (chk : TbCheck) (fuel j : Nat)
    (hi : env.SDL_Init = 0) (hw : env.SDL_CreateWindow ≠ none)
    (hs : env.tb_start_render_thread = true ∨ chk = TbCheck.fallThrough)
    (hf : j + 1 ≤ fuel) (h : first_false_at env (j + 1)) :
    SDL_main env chk fuel =
      { trace := startup_trace env ++ (frames env 0 j ++ last_frame env (j + 1)),
        outcome := Outcome.returned 0,
        loop := some { state_after env (j + 1) with running := false } } := by
  rw [SDL_main_loop_reached env chk fuel hi hw hs, main_loop_exit env fuel j hf h]

theorem SDL_main_looping (env : Env) (chk : TbCheck) (fuel : Nat)
    (hi : env.SDL_Init = 0) (hw : env.SDL_CreateWindow ≠ none)
    (hs : env.tb_start_render_thread = true ∨ chk = TbCheck.fallThrough)
    (h : ∀ i, 1 ≤ i → i ≤ fuel → env.tb_tick_world i = true) :
    SDL_main env chk fuel =
      { trace := startup_trace env ++ frames env 0 fuel,
        outcome := Outcome.stillLooping,
        loop := some (state_after env fuel) } := by
  rw [SDL_main_loop_reached env chk fuel hi hw hs, main_loop_looping env fuel h]

/-- The run reaches the main loop exactly when SDL initialises, the window
opens, and the render thread starts or `TB_CHECK` falls through. -/
theorem loop_reached_iff (env : Env) (chk : TbCheck) (fuel : Nat) :
    (SDL_main env chk fuel).loop ≠ none ↔
      (env.SDL_Init = 0 ∧ env.SDL_CreateWindow ≠ none ∧
        (env.tb_start_render_thread = true ∨ chk = TbCheck.fallThrough)) := by
  constructor
  · intro h
    by_cases hi : env.SDL_Init = 0
    · cases hw : env.SDL_CreateWindow with
      | none => simp [SDL_main, hi, hw] at h
      | some w =>
        cases hb : env.tb_start_render_thread with
        | true => simp [hi]
        | false =>
          cases chk with
          | fallThrough => simp [hi]
          | leave st => simp [SDL_main, hi, hw, hb] at h
    · simp [SDL_main, hi] at h
  · rintro ⟨hi, hw, hs⟩
    rw [SDL_main_loop_reached env chk fuel hi hw hs]
    exact main_loop_loop_ne_none env fuel _

/-! ## Projections of the trace -/

theorem tick_args_startup (env : Env) : tick_args (startup_trace env) = [] := by
  cases h : env.tb_start_render_thread <;> simp [tick_args, startup_trace, entry_events, h]

theorem tick_args_last_frame (env : Env) (n : Nat) :
    tick_args (last_frame env n) = [tick_arg env n] := by
  simp [tick_args, last_frame, frame_head, tick_arg]

theorem tick_args_full_frame (env : Env) (n : Nat) :
    tick_args (full_frame env n) = [tick_arg env n] := by
  simp [tick_args, full_frame, frame_head, tick_arg]

theorem tick_args_append (a b : List Event) :
    tick_args (a ++ b) = tick_args a ++ tick_args b := by
  simp [tick_args, List.filterMap_append]

theorem tick_args_frames (env : Env) :
    ∀ (j m : Nat), tick_args (frames env m j) = (List.range' (m + 1) j).map (tick_arg env) := by
  intro j
  induction j with
  | zero => intro m; simp [frames, tick_args]
  | succ j ih =>
    intro m
    simp [frames, tick_args_append, tick_args_full_frame, ih, List.range'_succ]

theorem loop_calls_append (a b : List Event) :
    loop_calls (a ++ b) = loop_calls a ++ loop_calls b := by
  simp [loop_calls, List.filterMap_append]

theorem loop_calls_startup (env : Env) : loop_calls (startup_trace env) = [] := by
  cases h : env.tb_start_render_thread <;> simp [loop_calls, startup_trace, entry_events, h]

theorem loop_calls_last_frame (env : Env) (n : Nat) :
    loop_calls (last_frame env n) = [LoopCall.tick] := by
  simp [loop_calls, last_frame, frame_head]

theorem loop_calls_full_frame (env : Env) (n : Nat) :
    loop_calls (full_frame env n) = [LoopCall.tick, LoopCall.reset true] := by
  simp [loop_calls, full_frame, frame_head]

theorem loop_calls_frames (env : Env) :
    ∀ (j m : Nat), loop_calls (frames env m j) =
      (List.replicate j [LoopCall.tick, LoopCall.reset true]).flatten := by
  intro j
  induction j with
  | zero => intro m; simp [frames, loop_calls]
  | succ j ih =>
    intro m
    simp [frames, loop_calls_append, loop_calls_full_frame, ih, List.replicate_succ]

theorem tick_count_startup (env : Env) : tick_count (startup_trace env) = 0 := by
  cases h : env.tb_start_render_thread <;>
    simp [tick_count, startup_trace, entry_events, h, Event.isTick]

theorem tick_count_append (a b : List Event) :
    tick_count (a ++ b) = tick_count a + tick_count b := by
  simp [tick_count, List.countP_append]

theorem tick_count_last_frame (env : Env) (n : Nat) : tick_count (last_frame env n) = 1 := by
  simp [tick_count, last_frame, frame_head, Event.isTick, List.countP_cons]

theorem tick_count_full_frame (env : Env) (n : Nat) : tick_count (full_frame env n) = 1 := by
  simp [tick_count, full_frame, frame_head, Event.isTick, List.countP_cons]

theorem tick_count_frames (env : Env) : ∀ (j m : Nat), tick_count (frames env m j) = j := by
  intro j
  induction j with
  | zero => intro m; simp [frames, tick_count]
  | succ j ih =>
    intro m
    simp [frames, tick_count_append, tick_count_full_frame, ih]
    omega

theorem reset_count_startup (env : Env) : reset_count (startup_trace env) = 0 := by
  cases h : env.tb_start_render_thread <;>
    simp [reset_count, startup_trace, entry_events, h, Event.isReset]

theorem reset_count_append (a b : List Event) :
    reset_count (a ++ b) = reset_count a + reset_count b := by
  simp [reset_count, List.countP_append]

theorem reset_count_last_frame (env : Env) (n : Nat) : reset_count (last_frame env n) = 0 := by
  simp [reset_count, last_frame, frame_head, Event.isReset]

theorem reset_count_full_frame (env : Env) (n : Nat) : reset_count (full_frame env n) = 1 := by
  simp [reset_count, full_frame, frame_head, Event.isReset, List.countP_cons]

theorem reset_count_frames (env : Env) : ∀ (j m : Nat), reset_count (frames env m j) = j := by
  intro j
  induction j with
  | zero => intro m; simp [frames, reset_count]
  | succ j ih =>
    intro m
    simp [frames, reset_count_append, reset_count_full_frame, ih]
    omega

/-! ## What a trace can contain -/

theorem main_loop_trace_frame_calls (env : Env) :
    ∀ (fuel : Nat) (s : LoopState) (e : Event),
      e ∈ (main_loop env fuel s).trace → e.isFrameCall = true := by
  intro fuel
  induction fuel with
  | zero => intro s e h; simp [main_loop] at h
  | succ f ih =>
    intro s e h
    simp only [main_loop] at h
    cases hr : s.running <;> cases ht : env.tb_tick_world (s.frame + 1) <;>
      simp [hr, ht] at h
    · rcases h with h | h | h | h | h | h | h | h <;> subst h <;> rfl
    · rcases h with h | h | h | h | h | h | h | h | h | h
      · subst h; rfl
      · subst h; rfl
      · subst h; rfl
      · subst h; rfl
      · subst h; rfl
      · subst h; rfl
      · subst h; rfl
      · subst h; rfl
      · subst h; rfl
      · exact ih _ e h

/-- An event of a trace is one of the startup calls, one of the calls of a
failure path, or a call made inside the main loop. -/
theorem SDL_main_trace_mem (env : Env) (chk : TbCheck) (fuel : Nat) (e : Event)
    (h : e ∈ (SDL_main env chk fuel).trace) :
    e ∈ startup_trace env ∨ e = Event.SDL_GetError ∨ e = Event.SDL_TriggerBreakpoint ∨
      e = Event.SDL_Log ("Failed to initialize SDL with error: " ++ env.SDL_GetError) ∨
      e = Event.SDL_Log ("Failed to open window with error: " ++ env.SDL_GetError) ∨
      (e = Event.SDL_Quit ∧ env.SDL_CreateWindow = none) ∨
      e = Event.TB_CHECK_failed "Failed to start render thread" ∨
      e.isFrameCall = true := by
  by_cases hi : env.SDL_Init = 0
  · cases hw : env.SDL_CreateWindow with
    | none =>
      simp [SDL_main, hi, hw, entry_events] at h
      simp [startup_trace, entry_events]
      tauto
    | some w =>
      by_cases hs : env.tb_start_render_thread = true ∨ chk = TbCheck.fallThrough
      · rw [SDL_main_loop_reached env chk fuel hi (by simp [hw]) hs] at h
        simp only [List.mem_append] at h
        rcases h with h | h
        · exact Or.inl h
        · exact Or.inr (Or.inr (Or.inr (Or.inr (Or.inr (Or.inr (Or.inr
            (main_loop_trace_frame_calls env _ _ e h)))))))
      · have hb : env.tb_start_render_thread = false := by
          cases hb : env.tb_start_render_thread <;> simp [hb] at hs ⊢
        cases chk with
        | fallThrough => simp at hs
        | leave st =>
          simp [SDL_main, hi, hw, hb, entry_events] at h
          simp [startup_trace, entry_events, hb]
          tauto
  · simp [SDL_main, hi, entry_events] at h
    simp [startup_trace, entry_events]
    tauto

theorem shutdown_call_not_in_trace (env : Env) (chk : TbCheck) (fuel : Nat) (e : Event)
    (he : e ∈ shutdown_sequence) (hq : e = Event.SDL_Quit → env.SDL_CreateWindow ≠ none) :
    e ∉ (SDL_main env chk fuel).trace := by
  intro hmem
  have h := SDL_main_trace_mem env chk fuel e hmem
  simp only [shutdown_sequence, List.mem_cons, List.mem_singleton, List.not_mem_nil,
    or_false] at he
  cases hb : env.tb_start_render_thread <;>
    rcases he with he | he | he | he | he | he | he | he | he <;> subst he <;>
    simp [startup_trace, entry_events, hb, Event.isFrameCall] at h hq
  all_goals exact hq h

theorem main_loop_last_call (env : Env) :
    ∀ (fuel : Nat) (s : LoopState), s.running = true →
      (main_loop env fuel s).outcome = Outcome.returned 0 →
      (main_loop env fuel s).trace.getLast? =
        some (Event.TracyCFrameMarkEnd "Simulation Frame") := by
  intro fuel
  induction fuel with
  | zero => intro s _ h; simp [main_loop] at h
  | succ f ih =>
    intro s hr h
    cases ht : env.tb_tick_world (s.frame + 1)
    · simp [main_loop, hr, ht]
    · simp only [main_loop, hr, ht, Bool.not_true, Bool.false_eq_true, if_false, if_true] at h ⊢
      have := ih _ (by simp [hr]) h
      rw [List.getLast?_append, this]
      rfl

/-! ## Termination of the frame pump and the shutdown sequence -/

theorem first_false_at_50 : first_false_at env_quit_at_50 (49 + 1) := by
  constructor
  · intro i _ hi
    simp only [env_quit_at_50, decide_eq_true_eq]
    omega
  · simp [env_quit_at_50]

/-- C1: in the scenario of the spec, where startup succeeds and `tb_tick_world`
returns false in frame 50, `SDL_main` ticks 50 times and returns 0, and its
trace contains none of the nine calls of the shutdown sequence: the `return 0;`
of line 166 precedes them, so the sequence is executed zero times. -/
theorem SDL_main_quit_at_50_skips_shutdown :
    (SDL_main env_quit_at_50 TB_CHECK_spec 64).outcome = Outcome.returned 0 ∧
      tick_count (SDL_main env_quit_at_50 TB_CHECK_spec 64).trace = 50 ∧
      (SDL_main env_quit_at_50 TB_CHECK_spec 64).trace.getLast? =
        some (Event.TracyCFrameMarkEnd "Simulation Frame") ∧
      ∀ e ∈ shutdown_sequence, e ∉ (SDL_main env_quit_at_50 TB_CHECK_spec 64).trace := by
  have hw : env_quit_at_50.SDL_CreateWindow ≠ none := by simp [env_quit_at_50, env_quit_at_1]
  have hrun := SDL_main_exit env_quit_at_50 TB_CHECK_spec 64 49 rfl hw (Or.inl rfl)
    (by omega) first_false_at_50
  refine ⟨by rw [hrun], ?_, ?_, ?_⟩
  · rw [hrun]
    simp [tick_count_append, tick_count_startup, tick_count_frames, tick_count_last_frame]
  · rw [hrun]
    simp [last_frame, List.getLast?_append]
  · intro e he
    exact shutdown_call_not_in_trace env_quit_at_50 TB_CHECK_spec 64 e he (fun _ => hw)

/-- C2: after a successful startup, a run whose first false tick is in frame
`k ≥ 1` returns 0 whatever iteration budget of at least `k` it is given, calls
`tb_tick_world` exactly `k` times, and its last tick is the tick of frame `k`,
followed only by the two profiling calls that close the frame; when tick never
returns false the loop is still running after any number of iterations, having
ticked once in each. -/
theorem SDL_main_tick_count (env : Env) (chk : TbCheck) (hs : startup_succeeds env) :
    (∀ k fuel, 1 ≤ k → first_false_at env k → k ≤ fuel →
      (SDL_main env chk fuel).outcome = Outcome.returned 0 ∧
      tick_count (SDL_main env chk fuel).trace = k ∧
      ∃ pre, tick_count pre = k - 1 ∧
        (SDL_main env chk fuel).trace = pre ++
          [Event.tb_tick_world (tick_arg env k).1 (tick_arg env k).2,
           Event.TracyCZoneEnd, Event.TracyCFrameMarkEnd "Simulation Frame"]) ∧
    ((∀ i, 1 ≤ i → env.tb_tick_world i = true) →
      ∀ fuel, (SDL_main env chk fuel).outcome = Outcome.stillLooping ∧
        tick_count (SDL_main env chk fuel).trace = fuel) := by
  obtain ⟨hi, hw, hst⟩ := hs
  constructor
  · intro k fuel hk hff hfuel
    obtain ⟨j, rfl⟩ : ∃ j, k = j + 1 := ⟨k - 1, by omega⟩
    have hrun := SDL_main_exit env chk fuel j hi hw (Or.inl hst) hfuel hff
    refine ⟨by rw [hrun], ?_, ?_⟩
    · rw [hrun]
      simp [tick_count_append, tick_count_startup, tick_count_frames, tick_count_last_frame]
    · refine ⟨startup_trace env ++ frames env 0 j ++
        [Event.TracyCFrameMarkStart "Simulation Frame", Event.TracyCZoneN "Simulation Frame",
         Event.TracyCZoneColor, Event.SDL_GetPerformanceCounter,
         Event.SDL_GetPerformanceFrequency], ?_, ?_⟩
      · simp [tick_count_append, tick_count_startup, tick_count_frames]
        simp [tick_count, Event.isTick]
      · rw [hrun]
        simp [last_frame, frame_head, tick_arg]
  · intro hall fuel
    have hrun := SDL_main_looping env chk fuel hi hw (Or.inl hst) (fun i h1 _ => hall i h1)
    refine ⟨by rw [hrun], ?_⟩
    rw [hrun]
    simp [tick_count_append, tick_count_startup, tick_count_frames]

theorem startup_succeeds_quit_at_3 : startup_succeeds env_quit_at_3 := by
  simp [startup_succeeds, env_quit_at_3, env_quit_at_1]

theorem startup_succeeds_never_quits : startup_succeeds env_never_quits := by
  simp [startup_succeeds, env_never_quits, env_quit_at_1]

theorem first_false_at_3 : first_false_at env_quit_at_3 3 := by
  constructor
  · intro i _ hi
    simp only [env_quit_at_3, decide_eq_true_eq]
    exact hi
  · simp [env_quit_at_3]

/-- Witness for C2: a run that quits in frame 3 ticks three times and returns
0 on a budget of 5 iterations, and a run that never quits is still looping
after 7 iterations. -/
theorem SDL_main_tick_count_witness :
    ((SDL_main env_quit_at_3 TbCheck.fallThrough 5).outcome = Outcome.returned 0 ∧
      tick_count (SDL_main env_quit_at_3 TbCheck.fallThrough 5).trace = 3) ∧
    ((SDL_main env_never_quits TbCheck.fallThrough 7).outcome = Outcome.stillLooping ∧
      tick_count (SDL_main env_never_quits TbCheck.fallThrough 7).trace = 7) := by
  have h3 := (SDL_main_tick_count env_quit_at_3 TbCheck.fallThrough
    startup_succeeds_quit_at_3).1 3 5 (by decide) first_false_at_3 (by decide)
  have hn := (SDL_main_tick_count env_never_quits TbCheck.fallThrough
    startup_succeeds_never_quits).2 (fun _ _ => rfl) 7
  exact ⟨⟨h3.1, h3.2.1⟩, hn⟩

/-- C4: no run of `SDL_main` makes any of the calls `tb_clear_world`,
`tb_stop_render_thread`, `upl_unregister_shooter_system`, `tb_destroy_world`,
`tb_destroy_render_thread`, `tb_free`, `tb_destroy_arena_alloc` or
`tb_destroy_gen_alloc`; a run that reaches the main loop never calls
`SDL_Quit`; and the last call of a run that returns 0 is the
`TracyCFrameMarkEnd` of the frame whose tick returned false, not an allocator
destroy. The order of the shutdown sequence is therefore never exhibited. -/
theorem SDL_main_never_runs_shutdown (env : Env) (chk : TbCheck) (fuel : Nat) :
    (∀ e ∈ shutdown_sequence, e ≠ Event.SDL_Quit → e ∉ (SDL_main env chk fuel).trace) ∧
    ((SDL_main env chk fuel).loop ≠ none → Event.SDL_Quit ∉ (SDL_main env chk fuel).trace) ∧
    ((SDL_main env chk fuel).outcome = Outcome.returned 0 →
      (SDL_main env chk fuel).trace.getLast? =
        some (Event.TracyCFrameMarkEnd "Simulation Frame")) := by
  refine ⟨?_, ?_, ?_⟩
  · intro e he hq
    exact shutdown_call_not_in_trace env chk fuel e he (fun h => absurd h hq)
  · intro h
    have hw := ((loop_reached_iff env chk fuel).mp h).2.1
    exact shutdown_call_not_in_trace env chk fuel Event.SDL_Quit
      (by simp [shutdown_sequence]) (fun _ => hw)
  · intro h
    by_cases hl : (SDL_main env chk fuel).loop = none
    · exfalso
      by_cases hi : env.SDL_Init = 0
      · cases hw : env.SDL_CreateWindow with
        | none => simp [SDL_main, hi, hw] at h
        | some w =>
          cases hb : env.tb_start_render_thread with
          | true =>
            exact (loop_reached_iff env chk fuel).mpr ⟨hi, by simp [hw], Or.inl hb⟩ hl
          | false =>
            cases chk with
            | fallThrough =>
              exact (loop_reached_iff env TbCheck.fallThrough fuel).mpr
                ⟨hi, by simp [hw], Or.inr rfl⟩ hl
            | leave st => simp [SDL_main, hi, hw, hb] at h
      · simp [SDL_main, hi] at h
    · obtain ⟨hi, hw, hs⟩ := (loop_reached_iff env chk fuel).mp hl
      rw [SDL_main_loop_reached env chk fuel hi hw hs] at h ⊢
      have := main_loop_last_call env fuel (initial_loop_state env) rfl h
      show (startup_trace env ++ (main_loop env fuel (initial_loop_state env)).trace).getLast? = _
      rw [List.getLast?_append, this]
      rfl

/-! ## Startup order -/

theorem SDL_main_trace_reached (env : Env) (chk : TbCheck) (fuel : Nat)
    (h : (SDL_main env chk fuel).loop ≠ none) :
    (SDL_main env chk fuel).trace =
      startup_trace env ++ (main_loop env fuel (initial_loop_state env)).trace := by
  obtain ⟨hi, hw, hs⟩ := (loop_reached_iff env chk fuel).mp h
  rw [SDL_main_loop_reached env chk fuel hi hw hs]

theorem world_creation_not_in_early_exit (env : Env) (chk : TbCheck) (fuel : Nat) (e : Event)
    (h : (SDL_main env chk fuel).loop = none) (he : e ∈ world_creation) :
    e ∉ (SDL_main env chk fuel).trace := by
  intro hmem
  simp only [world_creation, tb_create_world, create_world, List.mem_cons, List.mem_singleton,
    List.not_mem_nil, or_false] at he
  by_cases hi : env.SDL_Init = 0
  · cases hw : env.SDL_CreateWindow with
    | none =>
      rcases he with he | he | he <;> subst he <;> simp [SDL_main, hi, hw, entry_events] at hmem
    | some w =>
      cases hb : env.tb_start_render_thread with
      | true => exact (loop_reached_iff env chk fuel).mpr ⟨hi, by simp [hw], Or.inl hb⟩ h
      | false =>
        cases chk with
        | fallThrough =>
          exact (loop_reached_iff env TbCheck.fallThrough fuel).mpr
            ⟨hi, by simp [hw], Or.inr rfl⟩ h
        | leave st =>
          rcases he with he | he | he <;> subst he <;>
            simp [SDL_main, hi, hw, hb, entry_events] at hmem
  · rcases he with he | he | he <;> subst he <;> simp [SDL_main, hi, entry_events] at hmem

/-- C3: in every trace of `SDL_main`, a call that creates the world
(`tb_create_world`, or one of the two calls of the block it invokes) at
position `i` is preceded by a call of `tb_wait_thread_initialized` at some
position `j < i`, itself preceded by the call of `tb_start_render_thread` at
some position `l < j`. Calls are made one after the other by the main thread,
so a call at an earlier position has returned. -/
theorem SDL_main_handshake (env : Env) (chk : TbCheck) (fuel i : Nat) (e : Event)
    (hi : (SDL_main env chk fuel).trace[i]? = some e) (he : e ∈ world_creation) :
    ∃ l j, l < j ∧ j < i ∧
      (SDL_main env chk fuel).trace[l]? = some Event.tb_start_render_thread ∧
      (SDL_main env chk fuel).trace[j]? = some Event.tb_wait_thread_initialized := by
  have hmem : e ∈ (SDL_main env chk fuel).trace := List.getElem?_mem hi
  by_cases hl : (SDL_main env chk fuel).loop = none
  · exact absurd hmem (world_creation_not_in_early_exit env chk fuel e hl he)
  · have ht := SDL_main_trace_reached env chk fuel hl
    rw [ht] at hi ⊢
    simp only [world_creation, tb_create_world, create_world, List.mem_cons, List.mem_singleton,
      List.not_mem_nil, or_false] at he
    cases hb : env.tb_start_render_thread with
    | true =>
      have hL : startup_trace env =
          entry_events ++ [Event.SDL_Init, Event.SDL_LogSetAllPriority,
            Event.SDL_CreateWindow "Upland" 1920 1080, Event.tb_alloc_tp,
            Event.tb_start_render_thread, Event.tb_wait_thread_initialized,
            Event.tb_create_world, Event.tb_create_default_world,
            Event.upl_register_shooter_system, Event.tb_load_scene "scenes/upland.glb",
            Event.SDL_GetPerformanceCounter] := by
        simp [startup_trace, hb]
      rw [hL] at hi ⊢
      refine ⟨11, 12, by omega, ?_, rfl, rfl⟩
      by_contra hlt
      have hi12 : i ≤ 12 := by omega
      interval_cases i <;> simp [entry_events] at hi <;> subst hi <;> simp at he
    | false =>
      have hL : startup_trace env =
          entry_events ++ [Event.SDL_Init, Event.SDL_LogSetAllPriority,
            Event.SDL_CreateWindow "Upland" 1920 1080, Event.tb_alloc_tp,
            Event.tb_start_render_thread,
            Event.TB_CHECK_failed "Failed to start render thread",
            Event.tb_wait_thread_initialized,
            Event.tb_create_world, Event.tb_create_default_world,
            Event.upl_register_shooter_system, Event.tb_load_scene "scenes/upland.glb",
            Event.SDL_GetPerformanceCounter] := by
        simp [startup_trace, hb]
      rw [hL] at hi ⊢
      refine ⟨11, 13, by omega, ?_, rfl, rfl⟩
      by_contra hlt
      have hi13 : i ≤ 13 := by omega
      interval_cases i <;> simp [entry_events] at hi <;> subst hi <;> simp at he

/-- Witness for C3: in a run that quits in frame 1 the world is created at
position 13, after the wait at position 12 and the start at position 11. -/
theorem SDL_main_handshake_witness :
    (SDL_main env_quit_at_1 TB_CHECK_spec 1).trace[13]? = some Event.tb_create_world ∧
    ∃ l j, l < j ∧ j < 13 ∧
      (SDL_main env_quit_at_1 TB_CHECK_spec 1).trace[l]? = some Event.tb_start_render_thread ∧
      (SDL_main env_quit_at_1 TB_CHECK_spec 1).trace[j]? =
        some Event.tb_wait_thread_initialized :=
  ⟨by decide, SDL_main_handshake env_quit_at_1 TB_CHECK_spec 1 13 Event.tb_create_world
    (by decide) (by decide)⟩

theorem main_loop_no_load_scene (env : Env) (fuel : Nat) (s : LoopState) :
    (main_loop env fuel s).trace.countP Event.isLoadScene = 0 := by
  rw [List.countP_eq_zero]
  intro e he hl
  have := main_loop_trace_frame_calls env fuel s e he
  cases e <;> simp [Event.isLoadScene, Event.isFrameCall] at hl this

/-- C9: in every run that reaches the main loop the trace is some calls `pre`,
none of them a tick or a scene load, then the three calls that create the
world, then `tb_load_scene("scenes/upland.glb")`, then the reading of
`start_time`, then the calls of the main loop, none of which loads a scene; so
`tb_load_scene` is called exactly once, after the world is created and before
the first tick. -/
theorem SDL_main_load_scene_once (env : Env) (chk : TbCheck) (fuel : Nat)
    (h : (SDL_main env chk fuel).loop ≠ none) :
    (∃ pre, tick_count pre = 0 ∧ pre.countP Event.isLoadScene = 0 ∧
      (SDL_main env chk fuel).trace =
        pre ++ [Event.tb_create_world, Event.tb_create_default_world,
          Event.upl_register_shooter_system, Event.tb_load_scene "scenes/upland.glb",
          Event.SDL_GetPerformanceCounter] ++
        (main_loop env fuel (initial_loop_state env)).trace) ∧
    (main_loop env fuel (initial_loop_state env)).trace.countP Event.isLoadScene = 0 ∧
    (SDL_main env chk fuel).trace.countP Event.isLoadScene = 1 := by
  have ht := SDL_main_trace_reached env chk fuel h
  have hloop := main_loop_no_load_scene env fuel (initial_loop_state env)
  refine ⟨⟨entry_events ++
      [Event.SDL_Init, Event.SDL_LogSetAllPriority, Event.SDL_CreateWindow "Upland" 1920 1080,
       Event.tb_alloc_tp, Event.tb_start_render_thread] ++
      (if env.tb_start_render_thread then []
       else [Event.TB_CHECK_failed "Failed to start render thread"]) ++
      [Event.tb_wait_thread_initialized], ?_, ?_, ?_⟩, hloop, ?_⟩
  · cases env.tb_start_render_thread <;> simp [tick_count, entry_events, Event.isTick]
  · cases env.tb_start_render_thread <;> simp [entry_events, Event.isLoadScene]
  · rw [ht]
    simp [startup_trace]
  · rw [ht, List.countP_append, hloop]
    cases hb : env.tb_start_render_thread <;>
      simp [startup_trace, entry_events, hb, Event.isLoadScene, List.countP_cons]

/-- Witness for C9: a run that quits in frame 3 reaches the loop and loads the
scene once. -/
theorem SDL_main_load_scene_once_witness :
    (SDL_main env_quit_at_3 TB_CHECK_spec 5).loop ≠ none ∧
    (SDL_main env_quit_at_3 TB_CHECK_spec 5).trace.countP Event.isLoadScene = 1 :=
  ⟨by decide, (SDL_main_load_scene_once env_quit_at_3 TB_CHECK_spec 5 (by decide)).2.2⟩

/-! ## Fatal failures -/

theorem main_loop_outcome (env : Env) :
    ∀ (fuel : Nat) (s : LoopState),
      (main_loop env fuel s).outcome = Outcome.returned 0 ∨
      (main_loop env fuel s).outcome = Outcome.stillLooping := by
  intro fuel
  induction fuel with
  | zero => intro s; simp [main_loop]
  | succ f ih =>
    intro s
    simp only [main_loop]
    cases s.running <;> cases env.tb_tick_world (s.frame + 1) <;> simp
    exact ih _

/-- C6: when `SDL_Init` returns non-zero, or it returns zero and
`SDL_CreateWindow` returns `NULL`, `SDL_main` logs a message that ends with the
string of `SDL_GetError` and returns -1, and the whole trace is the entry calls
followed by the calls of the failing step, so the render thread is not
started, the world not created, no scene loaded and no tick made. Conversely a
`return` statement of `SDL_main` yields -1 only in those two cases, and a run
that reaches the main loop either returns 0 or is still looping. -/
theorem SDL_main_platform_failure (env : Env) (chk : TbCheck) (fuel : Nat) :
    (env.SDL_Init ≠ 0 →
      SDL_main env chk fuel =
        { trace := entry_events ++
            [Event.SDL_Init, Event.SDL_GetError,
             Event.SDL_Log ("Failed to initialize SDL with error: " ++ env.SDL_GetError),
             Event.SDL_TriggerBreakpoint],
          outcome := Outcome.returned (-1),
          loop := none }) ∧
    (env.SDL_Init = 0 → env.SDL_CreateWindow = none →
      SDL_main env chk fuel =
        { trace := entry_events ++
            [Event.SDL_Init, Event.SDL_LogSetAllPriority,
             Event.SDL_CreateWindow "Upland" 1920 1080, Event.SDL_GetError,
             Event.SDL_Log ("Failed to open window with error: " ++ env.SDL_GetError),
             Event.SDL_Quit, Event.SDL_TriggerBreakpoint],
          outcome := Outcome.returned (-1),
          loop := none }) ∧
    ((SDL_main env chk fuel).outcome = Outcome.returned (-1) ↔
      (env.SDL_Init ≠ 0 ∨ env.SDL_CreateWindow = none)) ∧
    ((SDL_main env chk fuel).outcome = Outcome.returned (-1) →
      Event.tb_start_render_thread ∉ (SDL_main env chk fuel).trace ∧
      (∀ e ∈ world_creation, e ∉ (SDL_main env chk fuel).trace) ∧
      (SDL_main env chk fuel).trace.countP Event.isLoadScene = 0 ∧
      tick_count (SDL_main env chk fuel).trace = 0) ∧
    ((SDL_main env chk fuel).loop ≠ none →
      (SDL_main env chk fuel).outcome = Outcome.returned 0 ∨
      (SDL_main env chk fuel).outcome = Outcome.stillLooping) := by
  have hA : env.SDL_Init ≠ 0 →
      SDL_main env chk fuel =
        { trace := entry_events ++
            [Event.SDL_Init, Event.SDL_GetError,
             Event.SDL_Log ("Failed to initialize SDL with error: " ++ env.SDL_GetError),
             Event.SDL_TriggerBreakpoint],
          outcome := Outcome.returned (-1),
          loop := none } := by
    intro hi
    simp [SDL_main, hi]
  have hB : env.SDL_Init = 0 → env.SDL_CreateWindow = none →
      SDL_main env chk fuel =
        { trace := entry_events ++
            [Event.SDL_Init, Event.SDL_LogSetAllPriority,
             Event.SDL_CreateWindow "Upland" 1920 1080, Event.SDL_GetError,
             Event.SDL_Log ("Failed to open window with error: " ++ env.SDL_GetError),
             Event.SDL_Quit, Event.SDL_TriggerBreakpoint],
          outcome := Outcome.returned (-1),
          loop := none } := by
    intro hi hw
    simp [SDL_main, hi, hw]
  have hC : (SDL_main env chk fuel).loop ≠ none →
      (SDL_main env chk fuel).outcome = Outcome.returned 0 ∨
      (SDL_main env chk fuel).outcome = Outcome.stillLooping := by
    intro h
    obtain ⟨hi, hw, hs⟩ := (loop_reached_iff env chk fuel).mp h
    rw [SDL_main_loop_reached env chk fuel hi hw hs]
    exact main_loop_outcome env fuel _
  have hD : (SDL_main env chk fuel).outcome = Outcome.returned (-1) →
      (env.SDL_Init ≠ 0 ∨ env.SDL_CreateWindow = none) := by
    intro h
    by_contra hn
    have hi : env.SDL_Init = 0 := by
      by_contra hi
      exact hn (Or.inl hi)
    have hw : env.SDL_CreateWindow ≠ none := fun hw => hn (Or.inr hw)
    obtain ⟨w, hw'⟩ := Option.ne_none_iff_exists'.mp hw
    by_cases hs : env.tb_start_render_thread = true ∨ chk = TbCheck.fallThrough
    · rcases hC ((loop_reached_iff env chk fuel).mpr ⟨hi, hw, hs⟩) with h0 | h0 <;>
        rw [h0] at h <;> simp at h
    · have hb : env.tb_start_render_thread = false := by
        cases hb : env.tb_start_render_thread <;> simp [hb] at hs ⊢
      cases chk with
      | fallThrough => simp at hs
      | leave st => simp [SDL_main, hi, hw', hb] at h
  refine ⟨hA, hB, ⟨hD, ?_⟩, ?_, hC⟩
  · rintro (hi | hw)
    · rw [hA hi]
    · by_cases hi : env.SDL_Init = 0
      · rw [hB hi hw]
      · rw [hA hi]
  · intro h
    have hcase := hD h
    have htr : (SDL_main env chk fuel).trace =
        entry_events ++
            [Event.SDL_Init, Event.SDL_GetError,
             Event.SDL_Log ("Failed to initialize SDL with error: " ++ env.SDL_GetError),
             Event.SDL_TriggerBreakpoint] ∨
        (SDL_main env chk fuel).trace =
        entry_events ++
            [Event.SDL_Init, Event.SDL_LogSetAllPriority,
             Event.SDL_CreateWindow "Upland" 1920 1080, Event.SDL_GetError,
             Event.SDL_Log ("Failed to open window with error: " ++ env.SDL_GetError),
             Event.SDL_Quit, Event.SDL_TriggerBreakpoint] := by
      by_cases hi : env.SDL_Init = 0
      · rcases hcase with hc | hc
        · exact absurd hi hc
        · exact Or.inr (by rw [hB hi hc])
      · exact Or.inl (by rw [hA hi])
    rcases htr with htr | htr <;> rw [htr] <;>
      simp [entry_events, world_creation, tb_create_world, create_world, tick_count,
        Event.isLoadScene, Event.isTick]

/-- Witness for C6: the run in which `SDL_Init` fails and the run in which the
window does not open both return -1 after logging the error string. -/
theorem SDL_main_platform_failure_witness :
    SDL_main env_init_fails TbCheck.fallThrough 4 =
      { trace := entry_events ++
          [Event.SDL_Init, Event.SDL_GetError,
           Event.SDL_Log "Failed to initialize SDL with error: no video device",
           Event.SDL_TriggerBreakpoint],
        outcome := Outcome.returned (-1),
        loop := none } ∧
    SDL_main env_window_fails TbCheck.fallThrough 4 =
      { trace := entry_events ++
          [Event.SDL_Init, Event.SDL_LogSetAllPriority,
           Event.SDL_CreateWindow "Upland" 1920 1080, Event.SDL_GetError,
           Event.SDL_Log "Failed to open window with error: no display",
           Event.SDL_Quit, Event.SDL_TriggerBreakpoint],
        outcome := Outcome.returned (-1),
        loop := none } :=
  ⟨((SDL_main_platform_failure env_init_fails TbCheck.fallThrough 4).1 (by decide)).trans
      (by decide),
   ((SDL_main_platform_failure env_window_fails TbCheck.fallThrough 4).2.1 rfl rfl).trans
      (by decide)⟩

/-- C7: with `TB_CHECK` as the spec describes it, when SDL initialises, the
window opens and `tb_start_render_thread` returns false, control leaves
`SDL_main` with status -1 right after the failed check: the trace ends there,
so `tb_wait_thread_initialized`, the creation of the world, `tb_load_scene` and
`tb_tick_world` are not called. -/
theorem SDL_main_render_thread_failure (env : Env) (fuel : Nat)
    (hi : env.SDL_Init = 0) (hw : env.SDL_CreateWindow ≠ none)
    (hs : env.tb_start_render_thread = false) :
    SDL_main env TB_CHECK_spec fuel =
      { trace := entry_events ++
          [Event.SDL_Init, Event.SDL_LogSetAllPriority,
           Event.SDL_CreateWindow "Upland" 1920 1080, Event.tb_alloc_tp,
           Event.tb_start_render_thread,
           Event.TB_CHECK_failed "Failed to start render thread"],
        outcome := Outcome.terminated (-1),
        loop := none } ∧
    Event.tb_wait_thread_initialized ∉ (SDL_main env TB_CHECK_spec fuel).trace ∧
    (∀ e ∈ world_creation, e ∉ (SDL_main env TB_CHECK_spec fuel).trace) ∧
    (SDL_main env TB_CHECK_spec fuel).trace.countP Event.isLoadScene = 0 ∧
    tick_count (SDL_main env TB_CHECK_spec fuel).trace = 0 := by
  obtain ⟨w, hw'⟩ := Option.ne_none_iff_exists'.mp hw
  have hrun : SDL_main env TB_CHECK_spec fuel =
      { trace := entry_events ++
          [Event.SDL_Init, Event.SDL_LogSetAllPriority,
           Event.SDL_CreateWindow "Upland" 1920 1080, Event.tb_alloc_tp,
           Event.tb_start_render_thread,
           Event.TB_CHECK_failed "Failed to start render thread"],
        outcome := Outcome.terminated (-1),
        loop := none } := by
    simp [SDL_main, TB_CHECK_spec, hi, hw', hs]
  refine ⟨hrun, ?_⟩
  rw [hrun]
  simp [entry_events, world_creation, tb_create_world, create_world, tick_count,
    Event.isLoadScene, Event.isTick]

/-- Witness for C7: the run in which the render thread fails to start ends
with status -1 on any iteration budget. -/
theorem SDL_main_render_thread_failure_witness :
    (SDL_main env_thread_fails TB_CHECK_spec 9).outcome = Outcome.terminated (-1) ∧
    tick_count (SDL_main env_thread_fails TB_CHECK_spec 9).trace = 0 :=
  have h := SDL_main_render_thread_failure env_thread_fails 9 rfl (by decide) rfl
  ⟨by rw [h.1], h.2.2.2.2⟩

/-! ## The calls of one iteration -/

/-- C8: in a run that reaches the main loop and whose first false tick is in
frame `k`, the ticks and arena resets of the trace are `k - 1` times the pair
`tb_tick_world`, `tb_reset_arena(arena, true)` followed by one last
`tb_tick_world`: no reset before the first tick, one reset with
`allow_growth = true` after each tick that returned true, none after the tick
that returned false, `k - 1` resets in all. While no tick has returned false,
the calls made so far are whole pairs. -/
theorem SDL_main_loop_calls (env : Env) (chk : TbCheck) (fuel : Nat)
    (h : (SDL_main env chk fuel).loop ≠ none) :
    (∀ k, 1 ≤ k → first_false_at env k → k ≤ fuel →
      loop_calls (SDL_main env chk fuel).trace =
        (List.replicate (k - 1) [LoopCall.tick, LoopCall.reset true]).flatten ++
          [LoopCall.tick] ∧
      reset_count (SDL_main env chk fuel).trace = k - 1 ∧
      tick_count (SDL_main env chk fuel).trace = k) ∧
    ((∀ i, 1 ≤ i → i ≤ fuel → env.tb_tick_world i = true) →
      loop_calls (SDL_main env chk fuel).trace =
        (List.replicate fuel [LoopCall.tick, LoopCall.reset true]).flatten ∧
      reset_count (SDL_main env chk fuel).trace = fuel) := by
  obtain ⟨hi, hw, hs⟩ := (loop_reached_iff env chk fuel).mp h
  constructor
  · intro k hk hff hfuel
    obtain ⟨j, rfl⟩ : ∃ j, k = j + 1 := ⟨k - 1, by omega⟩
    rw [SDL_main_exit env chk fuel j hi hw hs hfuel hff]
    simp [loop_calls_append, loop_calls_startup, loop_calls_frames, loop_calls_last_frame,
      reset_count_append, reset_count_startup, reset_count_frames, reset_count_last_frame,
      tick_count_append, tick_count_startup, tick_count_frames, tick_count_last_frame]
  · intro hall
    rw [SDL_main_looping env chk fuel hi hw hs hall]
    simp [loop_calls_append, loop_calls_startup, loop_calls_frames,
      reset_count_append, reset_count_startup, reset_count_frames]

/-- Witness for C8: a run that quits in frame 3 ticks, resets, ticks, resets
and ticks. -/
theorem SDL_main_loop_calls_witness :
    (SDL_main env_quit_at_3 TB_CHECK_spec 5).loop ≠ none ∧
    loop_calls (SDL_main env_quit_at_3 TB_CHECK_spec 5).trace =
      [LoopCall.tick, LoopCall.reset true, LoopCall.tick, LoopCall.reset true,
       LoopCall.tick] :=
  ⟨by decide,
   ((SDL_main_loop_calls env_quit_at_3 TB_CHECK_spec 5 (by decide)).1 3 (by decide)
      first_false_at_3 (by decide)).1⟩

/-! ## Timing -/

theorem elapsed_lt (env : Env) (n : Nat) : elapsed env n < UINT64_MODULUS := by
  unfold elapsed u64_sub UINT64_MODULUS
  omega

theorem elapsed_eq (env : Env) (n : Nat) :
    elapsed env n =
      u64_sub (env.SDL_GetPerformanceCounter n) (env.SDL_GetPerformanceCounter 0) := by
  unfold elapsed u64_sub UINT64_MODULUS
  omega

/-- The offset `start_time` cancels in `delta_time`. -/
theorem frame_delta_eq (env : Env) (n : Nat) :
    frame_delta env n =
      u64_sub (env.SDL_GetPerformanceCounter n) (env.SDL_GetPerformanceCounter (n - 1)) := by
  unfold frame_delta elapsed u64_sub UINT64_MODULUS
  omega

theorem u64_sub_of_le (a b : Nat) (hab : b ≤ a) (ha : a < UINT64_MODULUS) :
    u64_sub a b = a - b := by
  unfold u64_sub
  unfold UINT64_MODULUS at *
  omega

theorem sum_frame_delta (env : Env) :
    ∀ n, ((List.range' 1 n).map (frame_delta env)).sum % UINT64_MODULUS = elapsed env n := by
  intro n
  induction n with
  | zero => simp [elapsed_zero]
  | succ n ih =>
    rw [List.range'_concat, List.map_append, List.sum_append]
    simp only [List.map_cons, List.map_nil, List.sum_cons, List.sum_nil, Nat.add_zero,
      Nat.mul_one]
    have h1 := elapsed_lt env n
    have h2 := elapsed_lt env (n + 1)
    have e : 1 + 1 * n = n + 1 := by omega
    rw [e]
    have hd : frame_delta env (n + 1) = u64_sub (elapsed env (n + 1)) (elapsed env n) := by
      simp [frame_delta]
    rw [hd]
    generalize ((List.range' 1 n).map (frame_delta env)).sum = x at ih ⊢
    generalize elapsed env n = a at *
    generalize elapsed env (n + 1) = b at *
    unfold u64_sub
    unfold UINT64_MODULUS at *
    omega

/-- The ticks of a run that executes frame `n` start with the ticks of frames
`1, ..., n`. -/
theorem tick_args_through_frame (env : Env) (chk : TbCheck) (fuel n : Nat)
    (h : (SDL_main env chk fuel).loop ≠ none) (hn : 1 ≤ n)
    (hticks : ∀ i, 1 ≤ i → i < n → env.tb_tick_world i = true) (hfuel : n ≤ fuel) :
    ∃ rest, tick_args (SDL_main env chk fuel).trace =
      (List.range' 1 n).map (tick_arg env) ++ rest ∧ (fuel = n → rest = []) := by
  obtain ⟨hi, hw, hs⟩ := (loop_reached_iff env chk fuel).mp h
  obtain ⟨j, rfl⟩ : ∃ j, n = j + 1 := ⟨n - 1, by omega⟩
  obtain ⟨d, rfl⟩ : ∃ d, fuel = j + (d + 1) := ⟨fuel - (j + 1), by omega⟩
  have hfr := main_loop_frames env (d + 1) j 0 (fun i h1 h2 => hticks i (by omega) (by omega))
  rw [SDL_main_loop_reached env chk _ hi hw hs, initial_loop_state_eq, hfr]
  simp only [Nat.zero_add]
  cases ht : env.tb_tick_world (j + 1) with
  | false =>
    rw [main_loop_step_false env d j ht]
    refine ⟨[], ?_, fun _ => rfl⟩
    simp [tick_args_append, tick_args_startup, tick_args_frames, tick_args_last_frame,
      List.range'_concat, Nat.add_comm]
  | true =>
    rw [main_loop_step_true env d j ht]
    refine ⟨tick_args (main_loop env d (state_after env (j + 1))).trace, ?_, ?_⟩
    · simp [tick_args_append, tick_args_startup, tick_args_frames, tick_args_full_frame,
        List.range'_concat, Nat.add_comm]
    · intro hd
      have : d = 0 := by omega
      subst this
      simp [main_loop, tick_args]

theorem tick_args_frame (env : Env) (chk : TbCheck) (fuel n : Nat)
    (h : (SDL_main env chk fuel).loop ≠ none) (hn : 1 ≤ n)
    (hticks : ∀ i, 1 ≤ i → i < n → env.tb_tick_world i = true) (hfuel : n ≤ fuel) :
    (tick_args (SDL_main env chk fuel).trace)[n - 1]? = some (tick_arg env n) := by
  obtain ⟨rest, hrest, _⟩ := tick_args_through_frame env chk fuel n h hn hticks hfuel
  rw [hrest, List.getElem?_append_left (by simp; omega), List.getElem?_map,
    List.getElem?_range' 1 1 (by omega : n - 1 < n)]
  have e : 1 + 1 * (n - 1) = n := by omega
  rw [e]
  rfl

/-- C5: in a run that reaches the main loop and executes frame `n ≥ 1`, if the
counter readings `c 0, ..., c n` are non-decreasing and below `2 ^ 64`, the
tick of frame `n` is passed `delta_time = c n - c (n - 1)` and the frequency
read in that frame; when that frequency is not zero, the exact quotient is
`(c n - c (n - 1)) / frequency`, which is not negative. The tick of frame 1 is
passed `c 1 - c 0`, although `last_time` is 0 when the loop starts. -/
theorem SDL_main_delta_time (env : Env) (chk : TbCheck) (fuel n : Nat)
    (h : (SDL_main env chk fuel).loop ≠ none) (hn : 1 ≤ n)
    (hticks : ∀ i, 1 ≤ i → i < n → env.tb_tick_world i = true) (hfuel : n ≤ fuel)
    (hmono : ∀ i, i < n →
      env.SDL_GetPerformanceCounter i ≤ env.SDL_GetPerformanceCounter (i + 1))
    (hbound : ∀ i, i ≤ n → env.SDL_GetPerformanceCounter i < UINT64_MODULUS) :
    (tick_args (SDL_main env chk fuel).trace)[n - 1]? =
      some (env.SDL_GetPerformanceCounter n - env.SDL_GetPerformanceCounter (n - 1),
        env.SDL_GetPerformanceFrequency n % UINT64_MODULUS) ∧
    (0 < env.SDL_GetPerformanceFrequency n % UINT64_MODULUS →
      (tick_args (SDL_main env chk fuel).trace)[n - 1]?.map exact_seconds =
        some (((env.SDL_GetPerformanceCounter n : ℚ) -
            (env.SDL_GetPerformanceCounter (n - 1) : ℚ)) /
          ((env.SDL_GetPerformanceFrequency n % UINT64_MODULUS : ℕ) : ℚ))) ∧
    (∀ a, (tick_args (SDL_main env chk fuel).trace)[n - 1]? = some a → 0 ≤ exact_seconds a) ∧
    (initial_loop_state env).last_time = 0 ∧
    (tick_args (SDL_main env chk fuel).trace)[0]? =
      some (env.SDL_GetPerformanceCounter 1 - env.SDL_GetPerformanceCounter 0,
        env.SDL_GetPerformanceFrequency 1 % UINT64_MODULUS) := by
  have hle : env.SDL_GetPerformanceCounter (n - 1) ≤ env.SDL_GetPerformanceCounter n := by
    have := hmono (n - 1) (by omega)
    have e : n - 1 + 1 = n := by omega
    rwa [e] at this
  have hle1 : env.SDL_GetPerformanceCounter 0 ≤ env.SDL_GetPerformanceCounter 1 :=
    hmono 0 (by omega)
  have hnth : (tick_args (SDL_main env chk fuel).trace)[n - 1]? =
      some (env.SDL_GetPerformanceCounter n - env.SDL_GetPerformanceCounter (n - 1),
        env.SDL_GetPerformanceFrequency n % UINT64_MODULUS) := by
    rw [tick_args_frame env chk fuel n h hn hticks hfuel, tick_arg, frame_delta_eq,
      u64_sub_of_le _ _ hle (hbound n (le_refl n))]
  refine ⟨hnth, ?_, ?_, rfl, ?_⟩
  · intro _
    rw [hnth]
    simp [exact_seconds, Nat.cast_sub hle]
  · intro a _
    unfold exact_seconds
    positivity
  · have := tick_args_frame env chk fuel 1 h (le_refl 1) (fun i h1 h2 => by omega) (by omega)
    rw [show (1 - 1 : Nat) = 0 from rfl] at this
    rw [this, tick_arg, frame_delta_eq, u64_sub_of_le _ _ hle1 (hbound 1 hn)]

/-- Witness for C5: with readings `1000, 1016, 1032, ...` and a frequency of
1000, the tick of frame 2 is passed 16 counts, that is 16 / 1000 seconds. -/
theorem SDL_main_delta_time_witness :
    (SDL_main env_quit_at_3 TB_CHECK_spec 5).loop ≠ none ∧
    (tick_args (SDL_main env_quit_at_3 TB_CHECK_spec 5).trace)[2 - 1]? = some (16, 1000) ∧
    (tick_args (SDL_main env_quit_at_3 TB_CHECK_spec 5).trace)[0]? = some (16, 1000) :=
  have h := SDL_main_delta_time env_quit_at_3 TB_CHECK_spec 5 2 (by decide) (by decide)
    (fun i h1 h2 => by
      have : i = 1 := by omega
      subst this
      rfl)
    (by decide)
    (fun i _ => by simp [env_quit_at_3, env_quit_at_1])
    (fun i hi => by
      simp only [env_quit_at_3, env_quit_at_1, UINT64_MODULUS]
      omega)
  ⟨by decide, h.1, h.2.2.2.2⟩

/-- C10: for arbitrary counter readings, in a run that reaches the main loop
and is observed after frame `n` (all earlier ticks returned true), arithmetic
being modulo `2 ^ 64`: `last_time` is `c n - c 0`; the `delta_time` passed to
the tick of each frame `i` of `1, ..., n` is `c i - c (i - 1)`, without
`start_time`; and the sum of those `n` values is congruent to `c n - c 0`. -/
theorem SDL_main_timing_wraps (env : Env) (chk : TbCheck) (n : Nat)
    (h : (SDL_main env chk n).loop ≠ none)
    (hticks : ∀ i, 1 ≤ i → i < n → env.tb_tick_world i = true) :
    (SDL_main env chk n).loop.map LoopState.last_time =
      some (u64_sub (env.SDL_GetPerformanceCounter n) (env.SDL_GetPerformanceCounter 0)) ∧
    tick_deltas (SDL_main env chk n).trace =
      (List.range' 1 n).map (fun i =>
        u64_sub (env.SDL_GetPerformanceCounter i) (env.SDL_GetPerformanceCounter (i - 1))) ∧
    (tick_deltas (SDL_main env chk n).trace).sum % UINT64_MODULUS =
      u64_sub (env.SDL_GetPerformanceCounter n) (env.SDL_GetPerformanceCounter 0) ∧
    ((tick_deltas (SDL_main env chk n).trace).sum + env.SDL_GetPerformanceCounter 0) %
        UINT64_MODULUS = env.SDL_GetPerformanceCounter n % UINT64_MODULUS := by
  obtain ⟨hi, hw, hs⟩ := (loop_reached_iff env chk n).mp h
  have hdeltas : tick_deltas (SDL_main env chk n).trace =
      (List.range' 1 n).map (frame_delta env) := by
    rcases Nat.eq_zero_or_pos n with h0 | hpos
    · subst h0
      rw [SDL_main_loop_reached env chk 0 hi hw hs]
      simp [main_loop, tick_deltas, tick_args_startup]
    · obtain ⟨rest, hrest, hnil⟩ := tick_args_through_frame env chk n n h hpos hticks (le_refl n)
      rw [tick_deltas, hrest, hnil rfl]
      simp [tick_arg, Function.comp_def]
  have hlast : (SDL_main env chk n).loop.map LoopState.last_time = some (elapsed env n) := by
    rcases Nat.eq_zero_or_pos n with h0 | hpos
    · subst h0
      rw [SDL_main_loop_reached env chk 0 hi hw hs]
      simp [main_loop, initial_loop_state, elapsed_zero]
    · obtain ⟨j, rfl⟩ : ∃ j, n = j + 1 := ⟨n - 1, by omega⟩
      cases ht : env.tb_tick_world (j + 1) with
      | false =>
        rw [SDL_main_exit env chk (j + 1) j hi hw hs (le_refl _) ⟨hticks, ht⟩]
        simp [state_after]
      | true =>
        rw [SDL_main_looping env chk (j + 1) hi hw hs (fun i h1 h2 => by
          rcases Nat.lt_or_ge i (j + 1) with h3 | h3
          · exact hticks i h1 h3
          · have : i = j + 1 := by omega
            rw [this]
            exact ht)]
        simp [state_after]
  have hsum := sum_frame_delta env n
  refine ⟨by rw [hlast, elapsed_eq], ?_, ?_, ?_⟩
  · rw [hdeltas]
    exact List.map_congr_left (fun i _ => frame_delta_eq env i)
  · rw [hdeltas, hsum, elapsed_eq]
  · rw [hdeltas]
    have he := elapsed_eq env n
    rw [← hsum] at he
    generalize ((List.range' 1 n).map (frame_delta env)).sum = x at he ⊢
    unfold u64_sub at he
    unfold UINT64_MODULUS at *
    omega

/-- Witness for C10: with readings `2 ^ 64 - 5, 3, 10, 4` the three values of
`delta_time` are `8`, `7` and `2 ^ 64 - 6`, and `last_time` ends at `9`. -/
theorem SDL_main_timing_wraps_witness :
    (SDL_main env_wraps TB_CHECK_spec 3).loop ≠ none ∧
    (SDL_main env_wraps TB_CHECK_spec 3).loop.map LoopState.last_time = some 9 ∧
    tick_deltas (SDL_main env_wraps TB_CHECK_spec 3).trace = [8, 7, 18446744073709551610] :=
  have h := SDL_main_timing_wraps env_wraps TB_CHECK_spec 3 (by decide)
    (fun i h1 h2 => by
      have : i = 1 ∨ i = 2 := by omega
      rcases this with rfl | rfl <;> rfl)
  ⟨by decide, h.1.trans (by decide), h.2.1.trans (by decide)⟩

end Upland
